import Mathlib

/-!
Shallow embedding of the AI Meeting Notes Summarizer orchestration layer:
the three Supabase edge functions (`summarize`, `send-email`, `voice-to-text`)
and the client-side workflow controller (`App.tsx`).  Network effects are
modelled explicitly: each handler returns, next to its result, the list of
outbound calls it issued, and upstream providers are passed in as oracles.
-/

namespace AiSummarizer

/-! ## JS string primitives

`String.trim`, `String.splitOn` and `String.replace` from the Lean library
are well-founded recursions that the kernel cannot evaluate, so the JS string
methods of the source are embedded as structurally recursive functions on the
character list. -/

/-- JS `String.prototype.trim`: strip leading and trailing whitespace (the
ASCII whitespace of `Char.isWhitespace` covers every input considered
here). -/
def jsTrim (s : String) : String :=
  ((s.data.dropWhile Char.isWhitespace).reverse.dropWhile Char.isWhitespace).reverse.asString

/-- Helper of `jsSplit`: `acc` holds the current field reversed. -/
def jsSplitAux (sep : Char) : List Char → List Char → List String
  | [], acc => [acc.reverse.asString]
  | c :: cs, acc =>
    if c = sep then acc.reverse.asString :: jsSplitAux sep cs []
    else jsSplitAux sep cs (c :: acc)

/-- JS `String.prototype.split` with a one-character separator: a trailing
separator yields a trailing empty field, and splitting the empty string
yields `[""]`. -/
def jsSplit (sep : Char) (s : String) : List String :=
  jsSplitAux sep s.data []

/-- JS `String.prototype.replace` with a global one-character pattern, as in
`summary.replace(/\n/g, "<br>")`. -/
def jsReplaceChar (pat : Char) (repl : String) (s : String) : String :=
  (s.data.flatMap fun c => if c = pat then repl.data else [c]).asString

/-! ## Summarization gateway (`supabase/functions/summarize/index.ts`) -/

/-- One message of the chat-completion conversation. -/
structure ChatMessage where
  role : String
  content : String
deriving DecidableEq

/-- The JSON body sent to the chat-completions endpoint.  The source writes
`temperature: 0.3`; the literal is embedded as tenths to stay in exact
arithmetic. -/
structure ChatRequestBody where
  model : String
  messages : List ChatMessage
  max_tokens : Nat
  temperatureTenths : Nat
deriving DecidableEq

/-- The fixed system role message of the summarize handler. -/
def systemMessage : ChatMessage :=
  { role := "system"
    content := "You are a professional meeting notes summarizer. Create clear, well-structured summaries based on the user's specific instructions." }

/-- The user message: the caller's prompt quoted, then a literal separator,
then the transcript verbatim. -/
def userMessage (prompt transcript : String) : ChatMessage :=
  { role := "user"
    content := "Please process this meeting transcript according to the following instructions: \"" ++ prompt ++ "\"\n\nTranscript:\n" ++ transcript }

/-- The request body built by the summarize handler. -/
def summarizeRequestBody (transcript prompt : String) : ChatRequestBody :=
  { model := "mistralai/mistral-medium-3.1"
    messages := [systemMessage, userMessage prompt transcript]
    max_tokens := 2000
    temperatureTenths := 3 }

/-- `choices[i].message` of an upstream chat-completion response. -/
structure ChoiceMessage where
  content : Option String
deriving DecidableEq

/-- One element of `choices` of an upstream chat-completion response. -/
structure ChatChoice where
  message : Option ChoiceMessage
deriving DecidableEq

/-- An upstream chat-completion response: `ok` is `response.ok` of the fetch,
`choices` the parsed JSON array. -/
structure ChatCompletionResponse where
  ok : Bool
  choices : List ChatChoice
deriving DecidableEq

/-- `openrouterData.choices[0]?.message?.content` — optional chaining. -/
def extractSummary (r : ChatCompletionResponse) : Option String :=
  r.choices.head?.bind fun c => c.message.bind fun m => m.content

/-- Outcome of the summarize handler, one constructor per `Response` the
source can build (OPTIONS/405 routing aside). -/
inductive SummarizeResult where
  /-- 400 "Missing transcript or prompt" -/
  | missingInput
  /-- 500 "AI service not configured" -/
  | notConfigured
  /-- 500 "Failed to generate summary" -/
  | upstreamError
  /-- 500 "No summary generated" -/
  | emptyResult
  /-- 200 with JSON body carrying the summary -/
  | success (summary : String)
deriving DecidableEq

/-- HTTP status of each summarize outcome. -/
def SummarizeResult.status : SummarizeResult → Nat
  | .missingInput => 400
  | .notConfigured => 500
  | .upstreamError => 500
  | .emptyResult => 500
  | .success _ => 200

/-- The summarize handler.  `apiKey` models `Deno.env.get("OPENROUTER_API_KEY")`,
`upstream` the chat-completions provider.  Returns the outcome and the list of
outbound request bodies issued.  JS falsiness of a string is emptiness, so the
`if (!summary)` check fails both absent and empty extracted content. -/
def summarizeHandler (apiKey : Option String) (transcript prompt : String)
    (upstream : ChatRequestBody → ChatCompletionResponse) :
    SummarizeResult × List ChatRequestBody :=
  if transcript = "" ∨ prompt = "" then (.missingInput, [])
  else
    match apiKey with
    | none => (.notConfigured, [])
    | some _ =>
      let body := summarizeRequestBody transcript prompt
      let resp := upstream body
      if resp.ok = false then (.upstreamError, [body])
      else
        match extractSummary resp with
        | none => (.emptyResult, [body])
        | some s =>
          if s = "" then (.emptyResult, [body]) else (.success s, [body])

/-- C1: for non-empty transcript and prompt (and a configured key), the
summarize handler issues exactly one upstream call whose body is the fixed
system message followed by a user message quoting the prompt and appending the
transcript after a literal separator, with `max_tokens` 2000 and temperature
0.3; on an ok upstream response it returns the first choice's message content
as the summary, and fails with the 500-class empty-result response when that
content is absent (or empty, which JS `!summary` also treats as absent). -/
theorem summarize_single_verbatim_call (transcript prompt k : String)
    (upstream : ChatRequestBody → ChatCompletionResponse)
    (ht : transcript ≠ "") (hp : prompt ≠ "") :
    (summarizeHandler (some k) transcript prompt upstream).2
        = [summarizeRequestBody transcript prompt]
    ∧ (summarizeRequestBody transcript prompt).messages
        = [systemMessage, userMessage prompt transcript]
    ∧ (userMessage prompt transcript).content
        = "Please process this meeting transcript according to the following instructions: \""
            ++ prompt ++ "\"\n\nTranscript:\n" ++ transcript
    ∧ (summarizeRequestBody transcript prompt).max_tokens = 2000
    ∧ (summarizeRequestBody transcript prompt).temperatureTenths = 3
    ∧ ((upstream (summarizeRequestBody transcript prompt)).ok = true →
        ∀ c, extractSummary (upstream (summarizeRequestBody transcript prompt)) = some c →
          c ≠ "" →
          (summarizeHandler (some k) transcript prompt upstream).1 = .success c)
    ∧ ((upstream (summarizeRequestBody transcript prompt)).ok = true →
        (extractSummary (upstream (summarizeRequestBody transcript prompt)) = none
          ∨ extractSummary (upstream (summarizeRequestBody transcript prompt)) = some "") →
          (summarizeHandler (some k) transcript prompt upstream).1 = .emptyResult
          ∧ SummarizeResult.status .emptyResult = 500) := by
  have hcond : ¬ (transcript = "" ∨ prompt = "") := by
    rintro (h | h)
    exacts [ht h, hp h]
  have hH : summarizeHandler (some k) transcript prompt upstream
      = (if (upstream (summarizeRequestBody transcript prompt)).ok = false
           then SummarizeResult.upstreamError
           else
             match extractSummary (upstream (summarizeRequestBody transcript prompt)) with
             | none => SummarizeResult.emptyResult
             | some s =>
               if s = "" then SummarizeResult.emptyResult else SummarizeResult.success s,
         [summarizeRequestBody transcript prompt]) := by
    unfold summarizeHandler
    rw [if_neg hcond]
    cases hok : (upstream (summarizeRequestBody transcript prompt)).ok
    · simp [hok]
    · cases hex : extractSummary (upstream (summarizeRequestBody transcript prompt)) with
      | none => simp [hok, hex]
      | some c =>
        simp [hok, hex]
        split <;> rfl
  refine ⟨?_, rfl, rfl, rfl, rfl, ?_, ?_⟩
  · rw [hH]
  · intro hok c hex hc
    rw [hH]
    simp [hok, hex, hc]
  · intro hok hex
    refine ⟨?_, rfl⟩
    rw [hH]
    rcases hex with hex | hex <;> simp [hok, hex]

/-- A mocked upstream provider that always succeeds with summary "S". -/
def mockChatUpstream : ChatRequestBody → ChatCompletionResponse :=
  fun _ => { ok := true, choices := [{ message := some { content := some "S" } }] }

/-- Witness for C1 at transcript "t", prompt "p". -/
theorem summarize_single_verbatim_call_witness :
    (summarizeHandler (some "k") "t" "p" mockChatUpstream).2
      = [summarizeRequestBody "t" "p"] :=
  (summarize_single_verbatim_call "t" "p" "k" mockChatUpstream
    (by decide) (by decide)).1

/-! ## Email gateway (`supabase/functions/send-email/index.ts`) -/

/-- The parsed JSON body of a send-email request.  `recipients := none` models
a missing or non-array field, `summary := ""` a missing or empty field. -/
structure EmailBody where
  recipients : Option (List String)
  summary : String
  originalPrompt : String
  title : Option String
deriving DecidableEq

/-- The payload posted to the email provider.  The source keys `from` and `to`
are Lean keywords, hence `fromAddr` and `toAddrs`. -/
structure EmailData where
  fromAddr : String
  toAddrs : List String
  subject : String
  html : String
deriving DecidableEq

/-- The source reads the title as `(req as any).title`: a property of the
Fetch `Request` object, not of the parsed JSON body.  A `Request` has no
`title` property, so this read always yields `undefined`. -/
def requestTitleProp : Option String := none

/-- `const title = (req as any).title || 'Meeting Summary'` — JS `||` also
replaces an empty string. -/
def handlerTitle : String :=
  match requestTitleProp with
  | some t => if t = "" then "Meeting Summary" else t
  | none => "Meeting Summary"

/-- The fixed HTML template, with the summary body's line breaks converted to
`<br>` tags. -/
def htmlContent (title currentDate originalPrompt summary : String) : String :=
  String.intercalate "\n"
    [ ""
    , "      <html>"
    , "        <body style=\"font-family: Arial, sans-serif; line-height: 1.6; color: #333;\">"
    , "          <div style=\"max-width: 600px; margin: 0 auto; padding: 20px;\">"
    , "            <h1 style=\"color: #2563eb; border-bottom: 2px solid #e5e7eb; padding-bottom: 10px; margin-bottom: 20px;\">"
    , "              " ++ title
    , "            </h1>"
    , "            "
    , "            <div style=\"background: #f8fafc; padding: 15px; border-radius: 8px; margin: 20px 0;\">"
    , "              <p><strong>Generated on:</strong> " ++ currentDate ++ "</p>"
    , "              <p><strong>Summary Instructions:</strong> " ++ originalPrompt ++ "</p>"
    , "            </div>"
    , "            "
    , "            <div style=\"background: white; padding: 20px; border: 1px solid #e5e7eb; border-radius: 8px;\">"
    , "              <h2 style=\"color: #374151; margin-top: 0;\">Summary</h2>"
    , "              <div style=\"white-space: pre-wrap; font-size: 14px; line-height: 1.6;\">"
    , "                " ++ jsReplaceChar '\n' "<br>" summary
    , "              </div>"
    , "            </div>"
    , "            "
    , "            <div style=\"margin-top: 30px; padding: 15px; background: #f1f5f9; border-radius: 8px; text-align: center; font-size: 12px; color: #64748b;\">"
    , "              <p>This summary was generated using AI-powered meeting notes summarizer.</p>"
    , "            </div>"
    , "          </div>"
    , "        </body>"
    , "      </html>"
    , "    " ]

/-- The `emailData` object posted to the email provider. -/
def emailData (recipients : List String)
    (summary originalPrompt title currentDate : String) : EmailData :=
  { fromAddr := "Meeting Summarizer <noreply@yourdomain.com>"
    toAddrs := recipients
    subject := title ++ " - " ++ currentDate
    html := htmlContent title currentDate originalPrompt summary }

/-- Outcome of the send-email handler, one constructor per `Response` the
source can build (OPTIONS/405 routing aside). -/
inductive EmailResult where
  /-- 400 "Missing or invalid recipients" -/
  | missingRecipients
  /-- 400 "Missing summary content" -/
  | missingSummary
  /-- 500 "Email service not configured" -/
  | notConfigured
  /-- 500 "Failed to send email" -/
  | upstreamError
  /-- 200 with success true -/
  | success (data : EmailData)
deriving DecidableEq

/-- HTTP status of each send-email outcome. -/
def EmailResult.status : EmailResult → Nat
  | .missingRecipients => 400
  | .missingSummary => 400
  | .notConfigured => 500
  | .upstreamError => 500
  | .success _ => 200

/-- The send-email handler.  `apiKey` models `Deno.env.get("RESEND_API_KEY")`,
`currentDate` the formatted `new Date()`, `upstream` the email provider's
`response.ok`.  Returns the outcome and the list of outbound payloads. -/
def sendEmailHandler (apiKey : Option String) (currentDate : String)
    (body : EmailBody) (upstream : EmailData → Bool) :
    EmailResult × List EmailData :=
  match body.recipients with
  | none => (.missingRecipients, [])
  | some rs =>
    if rs = [] then (.missingRecipients, [])
    else if body.summary = "" then (.missingSummary, [])
    else
      match apiKey with
      | none => (.notConfigured, [])
      | some _ =>
        let data := emailData rs body.summary body.originalPrompt handlerTitle currentDate
        if upstream data then (.success data, [data])
        else (.upstreamError, [data])

/-- A send-email request body that supplies the optional title field. -/
def titledEmailBody : EmailBody :=
  { recipients := some ["a@x.com"], summary := "S", originalPrompt := "P"
    title := some "Quarterly Review" }

/-- C8: the handler ignores the request body's `title` field entirely — its
outcome is invariant under changing that field — and at a request supplying
title "Quarterly Review" it renders and sends the default heading
"Meeting Summary" instead. -/
theorem sendEmail_title_ignored :
    (∀ (apiKey : Option String) (d : String) (b : EmailBody) (t : Option String)
        (upstream : EmailData → Bool),
        sendEmailHandler apiKey d { b with title := t } upstream
          = sendEmailHandler apiKey d b upstream)
    ∧ (sendEmailHandler (some "k") "August 1, 2025" titledEmailBody (fun _ => true)).1
        = .success (emailData ["a@x.com"] "S" "P" "Meeting Summary" "August 1, 2025")
    ∧ (emailData ["a@x.com"] "S" "P" "Meeting Summary" "August 1, 2025").subject
        = "Meeting Summary - August 1, 2025" := by
  refine ⟨?_, by rfl, by rfl⟩
  intro apiKey d b t upstream
  cases b
  rfl

/-! ## Transcription gateway (`voice-to-text`, AssemblyAI variant) -/

/-- The parsed JSON of one poll of the transcript status endpoint, together
with the `ok` flag of the poll's fetch response. -/
structure PollReply where
  ok : Bool
  status : String
  text : Option String
deriving DecidableEq

/-- The fixed delay before each poll: `setTimeout(resolve, 2000)`. -/
def pollIntervalMs : Nat := 2000

/-- The do-while polling loop.  `oracle i` is the reply of the i-th poll; the
loop keeps polling while the response is ok and the status is neither
"completed" nor "error".  Returns the total number of polls issued (starting
from index 0) and the last reply; `none` when `fuel` iterations did not reach
a terminal reply (the source loop is unbounded). -/
def pollLoop (oracle : Nat → PollReply) : Nat → Nat → Option (Nat × PollReply)
  | 0, _ => none
  | fuel + 1, i =>
    let r := oracle i
    if r.ok = true ∧ r.status ≠ "completed" ∧ r.status ≠ "error"
    then pollLoop oracle fuel (i + 1)
    else some (i + 1, r)

/-- The uploaded audio file: its `name` and `size` are echoed in the success
response. -/
structure AudioFile where
  name : String
  size : Nat
deriving DecidableEq

/-- One outbound network call of the voice-to-text handler. -/
inductive VttCall where
  /-- POST of the raw audio bytes to the upload endpoint -/
  | upload
  /-- POST submitting the transcription job -/
  | submitJob
  /-- the i-th status poll, issued after a fixed delay of `delayMs` ms -/
  | poll (i : Nat) (delayMs : Nat)
deriving DecidableEq

/-- Outcome of the voice-to-text handler, one constructor per `Response` the
source can build (OPTIONS/405 routing aside). -/
inductive TranscribeResult where
  /-- 400 "No audio file provided" -/
  | missingFile
  /-- 500 "Speech-to-text service not configured" -/
  | notConfigured
  /-- 500 "Failed to upload audio to AssemblyAI" -/
  | uploadError
  /-- 500 "Failed to transcribe audio" -/
  | submitError
  /-- 500 "Transcription failed on AssemblyAI side" -/
  | transcriptionFailed
  /-- 500 "No transcription generated" -/
  | emptyResult
  /-- 200 with the trimmed transcription, filename and size -/
  | success (transcription filename : String) (size : Nat)
deriving DecidableEq

/-- HTTP status of each voice-to-text outcome. -/
def TranscribeResult.status : TranscribeResult → Nat
  | .missingFile => 400
  | .notConfigured => 500
  | .uploadError => 500
  | .submitError => 500
  | .transcriptionFailed => 500
  | .emptyResult => 500
  | .success _ _ _ => 200

/-- The mocked AssemblyAI provider: outcome of the upload call, of the job
submission, and the reply of each status poll. -/
structure VttEnv where
  uploadOk : Bool
  submitOk : Bool
  oracle : Nat → PollReply

/-- The voice-to-text handler.  `apiKey` models
`Deno.env.get("ASSEMBLYAI_API_KEY")`.  Returns the outcome (`none` when the
unbounded poll loop did not terminate within `fuel` polls) and the list of
outbound calls issued. -/
def voiceToTextHandler (apiKey : Option String) (audio : Option AudioFile)
    (env : VttEnv) (fuel : Nat) : Option TranscribeResult × List VttCall :=
  match audio with
  | none => (some .missingFile, [])
  | some file =>
    match apiKey with
    | none => (some .notConfigured, [])
    | some _ =>
      if env.uploadOk = false then (some .uploadError, [.upload])
      else if env.submitOk = false then (some .submitError, [.upload, .submitJob])
      else
        match pollLoop env.oracle fuel 0 with
        | none =>
          (none, [.upload, .submitJob]
                   ++ (List.range fuel).map (fun j => .poll j pollIntervalMs))
        | some (n, r) =>
          let res :=
            if r.status = "error" then TranscribeResult.transcriptionFailed
            else
              match r.text with
              | none => TranscribeResult.emptyResult
              | some t =>
                if t = "" then TranscribeResult.emptyResult
                else TranscribeResult.success (jsTrim t) file.name file.size
          (some res, [.upload, .submitJob]
                       ++ (List.range n).map (fun j => .poll j pollIntervalMs))

/-- C5: the gateway polls at a fixed 2000 ms interval until the status is
terminal.  For a job whose status is `processing` once and then `completed`,
it polls exactly twice (hence at least twice) and returns the job's final
text; for a job whose first status is `error`, it fails with the upstream
transcription error after exactly one poll, issuing no further poll past the
terminal status. -/
theorem transcription_polling (env1 env2 : VttEnv) (file : AudioFile)
    (k t : String) (fuel1 fuel2 : Nat)
    (h1u : env1.uploadOk = true) (h1s : env1.submitOk = true)
    (h10 : env1.oracle 0 = { ok := true, status := "processing", text := none })
    (h11 : env1.oracle 1 = { ok := true, status := "completed", text := some t })
    (ht : t ≠ "") (hfuel1 : 2 ≤ fuel1)
    (h2u : env2.uploadOk = true) (h2s : env2.submitOk = true)
    (h20 : env2.oracle 0 = { ok := true, status := "error", text := none })
    (hfuel2 : 1 ≤ fuel2) :
    pollIntervalMs = 2000
    ∧ voiceToTextHandler (some k) (some file) env1 fuel1
        = (some (.success (jsTrim t) file.name file.size),
           [.upload, .submitJob, .poll 0 pollIntervalMs, .poll 1 pollIntervalMs])
    ∧ voiceToTextHandler (some k) (some file) env2 fuel2
        = (some .transcriptionFailed, [.upload, .submitJob, .poll 0 pollIntervalMs])
    ∧ TranscribeResult.status .transcriptionFailed = 500 := by
  obtain ⟨f1, rfl⟩ : ∃ f, fuel1 = f + 2 := ⟨fuel1 - 2, by omega⟩
  obtain ⟨f2, rfl⟩ : ∃ f, fuel2 = f + 1 := ⟨fuel2 - 1, by omega⟩
  have hp1 : pollLoop env1.oracle (f1 + 2) 0 = some (2, env1.oracle 1) := by
    unfold pollLoop
    rw [h10]
    simp only [show ((true = true ∧ ("processing" : String) ≠ "completed"
        ∧ ("processing" : String) ≠ "error")) = True by simp, if_true]
    unfold pollLoop
    rw [h11]
    simp
  have hp2 : pollLoop env2.oracle (f2 + 1) 0 = some (1, env2.oracle 0) := by
    unfold pollLoop
    rw [h20]
    simp
  refine ⟨rfl, ?_, ?_, rfl⟩
  · unfold voiceToTextHandler
    rw [h1u, h1s, hp1, h11]
    simp [ht]
    rfl
  · unfold voiceToTextHandler
    rw [h2u, h2s, hp2, h20]
    simp
    rfl

/-- A mocked job that is `processing` on the first poll and `completed` with
text "Hello" afterwards. -/
def mockPollEnvOk : VttEnv :=
  { uploadOk := true, submitOk := true
    oracle := fun i =>
      if i = 0 then { ok := true, status := "processing", text := none }
      else { ok := true, status := "completed", text := some "Hello" } }

/-- A mocked job that reports status `error` on the first poll. -/
def mockPollEnvErr : VttEnv :=
  { uploadOk := true, submitOk := true
    oracle := fun _ => { ok := true, status := "error", text := none } }

/-- Witness for C5 at concrete mocked jobs. -/
theorem transcription_polling_witness :
    voiceToTextHandler (some "k") (some { name := "a.mp3", size := 3 }) mockPollEnvOk 2
      = (some (.success (jsTrim "Hello") "a.mp3" 3),
         [.upload, .submitJob, .poll 0 pollIntervalMs, .poll 1 pollIntervalMs]) :=
  (transcription_polling mockPollEnvOk mockPollEnvErr { name := "a.mp3", size := 3 }
    "k" "Hello" 2 1 rfl rfl (by decide) (by decide) (by decide) (by decide)
    rfl rfl (by decide) (by decide)).2.1

/-- C3: for each of the three endpoints, an otherwise valid request with the
provider API key environment variable absent yields the 500-class
"service not configured" outcome and issues no outbound network call. -/
theorem missing_key_fails_closed (transcript prompt d : String)
    (b : EmailBody) (rs : List String) (file : AudioFile) (env : VttEnv) (fuel : Nat)
    (chatUpstream : ChatRequestBody → ChatCompletionResponse)
    (emailUpstream : EmailData → Bool)
    (ht : transcript ≠ "") (hp : prompt ≠ "")
    (hr : b.recipients = some rs) (hrs : rs ≠ []) (hs : b.summary ≠ "") :
    summarizeHandler none transcript prompt chatUpstream = (.notConfigured, [])
    ∧ SummarizeResult.status .notConfigured = 500
    ∧ sendEmailHandler none d b emailUpstream = (.notConfigured, [])
    ∧ EmailResult.status .notConfigured = 500
    ∧ voiceToTextHandler none (some file) env fuel = (some .notConfigured, [])
    ∧ TranscribeResult.status .notConfigured = 500 := by
  have hcond : ¬ (transcript = "" ∨ prompt = "") := by
    rintro (h | h)
    exacts [ht h, hp h]
  refine ⟨?_, rfl, ?_, rfl, rfl, rfl⟩
  · unfold summarizeHandler
    rw [if_neg hcond]
  · simp [sendEmailHandler, hr, hrs, hs]

/-- Witness for C3 at concrete valid requests. -/
theorem missing_key_fails_closed_witness :
    summarizeHandler none "t" "p" mockChatUpstream = (.notConfigured, []) :=
  (missing_key_fails_closed "t" "p" "d" titledEmailBody ["a@x.com"]
    { name := "a.mp3", size := 3 } mockPollEnvOk 2 mockChatUpstream (fun _ => true)
    (by decide) (by decide) rfl (by decide) (by decide)).1

/-! ## Workflow controller (`App.tsx`) -/

/-- Kind of the transient notification. -/
inductive MessageType where
  | success
  | error
  | info
deriving DecidableEq

/-- A generated summary (source `interface Summary`). -/
structure Summary where
  id : String
  content : String
  prompt : String
  originalTranscript : String
  createdAt : String
  title : String
deriving DecidableEq

/-- A history entry (source `interface StoredResponse`). -/
structure StoredResponse where
  id : String
  summary : Summary
  timestamp : String
deriving DecidableEq

/-- The React state of `App`, minus the pure UI booleans (`isGenerating`,
`isEditing`, `isSending`, `isProcessingVoice`), which gate no data flow. -/
structure AppState where
  transcript : String
  customPrompt : String
  summary : String
  emailRecipients : String
  message : String
  messageType : MessageType
  storedResponses : List StoredResponse
  selectedResponse : Option String
  summaryTitle : String
deriving DecidableEq

/-- The `useState` initial values. -/
def initialState : AppState :=
  { transcript := ""
    customPrompt := "Summarize the key points and action items from this meeting in a clear, organized format."
    summary := ""
    emailRecipients := ""
    message := ""
    messageType := .info
    storedResponses := []
    selectedResponse := none
    summaryTitle := "" }

/-- `showMessage` (its 5-second auto-dismiss timer is a UI timer out of
scope). -/
def showMessage (s : AppState) (text : String) (ty : MessageType) : AppState :=
  { s with message := text, messageType := ty }

/-- `handleFileUpload` with type "text": the file contents become the
transcript. -/
def handleTextUpload (s : AppState) (contents : String) : AppState :=
  showMessage { s with transcript := contents } "Text file uploaded successfully!" .success

/-- `handleFileUpload` with type "voice": `gateway` is the outcome of the
voice-to-text call; on success its transcription replaces the transcript, on
failure only the error notification is shown. -/
def handleVoiceUpload (s : AppState) (gateway : Except Unit String) : AppState :=
  match gateway with
  | .ok transcription =>
    showMessage { s with transcript := transcription } "Voice file processed successfully!" .success
  | .error _ => showMessage s "Error processing voice file. Please try again." .error

/-- `generateSummary`: `gateway` is the summarize call on the trimmed
transcript and prompt, `dateStr` is `new Date().toLocaleDateString()`. -/
def generateSummary (s : AppState) (gateway : String → String → Except Unit String)
    (dateStr : String) : AppState :=
  if jsTrim s.transcript = "" then showMessage s "Please provide a transcript first." .error
  else
    match gateway (jsTrim s.transcript) (jsTrim s.customPrompt) with
    | .ok data =>
      showMessage { s with summary := data, summaryTitle := "Summary - " ++ dateStr }
        "Summary generated successfully!" .success
    | .error _ => showMessage s "Error generating summary. Please try again." .error

/-- `regenerateSummary`: re-checks the transcript, then re-invokes
`generateSummary`. -/
def regenerateSummary (s : AppState) (gateway : String → String → Except Unit String)
    (dateStr : String) : AppState :=
  if jsTrim s.transcript = "" then showMessage s "Please provide a transcript first." .error
  else generateSummary s gateway dateStr

/-- The `newResponse` object built by `saveSummary`: both ids are
`Date.now().toString()`. -/
def savedEntry (s : AppState) (now : Nat) (dateStr isoNow : String) : StoredResponse :=
  { id := Nat.repr now
    summary :=
      { id := Nat.repr now
        content := s.summary
        prompt := s.customPrompt
        originalTranscript := s.transcript
        createdAt := isoNow
        title := if s.summaryTitle = "" then "Summary - " ++ dateStr else s.summaryTitle }
    timestamp := isoNow }

/-- `saveSummary`: `now` is `Date.now()`, `dateStr` is
`new Date().toLocaleDateString()`, `isoNow` is `new Date().toISOString()`. -/
def saveSummary (s : AppState) (now : Nat) (dateStr isoNow : String) : AppState :=
  if jsTrim s.summary = "" then showMessage s "No summary to save." .error
  else
    showMessage { s with storedResponses := savedEntry s now dateStr isoNow :: s.storedResponses }
      "Summary saved successfully!" .success

/-- `loadStoredResponse`: a silent no-op when the id is absent. -/
def loadStoredResponse (s : AppState) (responseId : String) : AppState :=
  match s.storedResponses.find? (fun r => r.id == responseId) with
  | some response =>
    showMessage
      { s with summary := response.summary.content
               customPrompt := response.summary.prompt
               transcript := response.summary.originalTranscript
               summaryTitle := response.summary.title
               selectedResponse := some responseId }
      "Summary loaded successfully!" .success
  | none => s

/-- `deleteStoredResponse`: removes the entry and clears the selection when it
was the selected one. -/
def deleteStoredResponse (s : AppState) (responseId : String) : AppState :=
  let s' := { s with storedResponses := s.storedResponses.filter (fun r => r.id != responseId) }
  if s.selectedResponse = some responseId
  then showMessage { s' with selectedResponse := none } "Summary deleted successfully!" .success
  else showMessage s' "Summary deleted successfully!" .success

/-- The request body `sendEmail` posts to the send-email function. -/
def sendEmailPayload (s : AppState) : EmailBody :=
  { recipients := some ((jsSplit ',' s.emailRecipients).map jsTrim)
    summary := jsTrim s.summary
    originalPrompt := jsTrim s.customPrompt
    title := some s.summaryTitle }

/-- `sendEmail`: returns the next state and the list of gateway calls
issued. -/
def sendEmailOp (s : AppState) (gateway : EmailBody → Except Unit Unit) :
    AppState × List EmailBody :=
  if jsTrim s.summary = "" then
    (showMessage s "Please generate a summary first." .error, [])
  else if jsTrim s.emailRecipients = "" then
    (showMessage s "Please enter at least one email recipient." .error, [])
  else
    match gateway (sendEmailPayload s) with
    | .ok _ =>
      ({ showMessage s "Summary sent successfully!" .success with emailRecipients := "" },
       [sendEmailPayload s])
    | .error _ =>
      (showMessage s "Error sending email. Please try again." .error, [sendEmailPayload s])

/-- C2: when the summarize gateway fails, `generateSummary` leaves the
transcript, the previously held summary and the history untouched, and when
the voice-to-text gateway fails, the transcript field is unchanged (only the
notification fields change). -/
theorem failed_gateway_preserves_state (s : AppState)
    (g : String → String → Except Unit String) (d : String) (e : Unit)
    (h : g (jsTrim s.transcript) (jsTrim s.customPrompt) = Except.error e) :
    ((generateSummary s g d).transcript = s.transcript
      ∧ (generateSummary s g d).summary = s.summary
      ∧ (generateSummary s g d).storedResponses = s.storedResponses)
    ∧ ∀ e2 : Unit, (handleVoiceUpload s (Except.error e2)).transcript = s.transcript := by
  constructor
  · by_cases hT : jsTrim s.transcript = ""
    · simp [generateSummary, hT, showMessage]
    · simp [generateSummary, hT, h, showMessage]
  · intro e2
    simp [handleVoiceUpload, showMessage]

/-- Witness for C2 at the initial state and an always-failing gateway. -/
theorem failed_gateway_preserves_state_witness :
    (generateSummary initialState (fun _ _ => Except.error ()) "d").transcript
      = initialState.transcript :=
  (failed_gateway_preserves_state initialState (fun _ _ => Except.error ()) "d" () rfl).1.1

/-- C9: the email payload and the email the gateway renders from it are
independent of the transcript field: two workflow states differing only in
the transcript yield identical payloads and identical handler outcomes, so
the transcript is never emailed. -/
theorem email_independent_of_transcript (s : AppState) (t : String) :
    sendEmailPayload { s with transcript := t } = sendEmailPayload s
    ∧ ∀ (k : Option String) (d : String) (g : EmailData → Bool),
        sendEmailHandler k d (sendEmailPayload { s with transcript := t }) g
          = sendEmailHandler k d (sendEmailPayload s) g :=
  ⟨rfl, fun _ _ _ => rfl⟩

/-- C4 counterexample: for the non-empty recipients string "a@x.com," (a
trailing comma), `sendEmail` forwards a list that does contain an empty
entry. -/
theorem sendEmail_trailing_comma_empty_entry :
    ((sendEmailOp { initialState with summary := "S", emailRecipients := "a@x.com," }
        (fun _ => Except.ok ())).2.map (fun b => b.recipients))
      = [some ["a@x.com", ""]]
    ∧ "" ∈ ["a@x.com", ""] := by
  exact ⟨by decide, by decide⟩

/-- C4 amended: `sendEmail` splits the recipients string on commas and trims
each entry; empty entries arising from trailing commas are forwarded rather
than dropped; the input "a@x.com, b@x.com" is forwarded as exactly
["a@x.com", "b@x.com"]. -/
theorem sendEmail_splits_and_trims :
    (∀ s : AppState, (sendEmailPayload s).recipients
        = some ((jsSplit ',' s.emailRecipients).map jsTrim))
    ∧ ((sendEmailOp { initialState with summary := "S", emailRecipients := "a@x.com, b@x.com" }
          (fun _ => Except.ok ())).2.map (fun b => b.recipients))
        = [some ["a@x.com", "b@x.com"]] := by
  exact ⟨fun s => rfl, by decide⟩

/-! ## Injectivity of `Nat.repr`

History entry ids are `Date.now().toString()`; distinct timestamps give
distinct id strings because decimal printing is injective. -/

/-- Decimal value of the digit characters produced by `Nat.digitChar`. -/
def digitVal (c : Char) : Nat :=
  if c = '0' then 0 else if c = '1' then 1 else if c = '2' then 2 else
  if c = '3' then 3 else if c = '4' then 4 else if c = '5' then 5 else
  if c = '6' then 6 else if c = '7' then 7 else if c = '8' then 8 else
  if c = '9' then 9 else 10

theorem digitVal_digitChar : ∀ d < 10, digitVal (Nat.digitChar d) = d := by decide

/-- Folding step reading a decimal digit string back into a number. -/
def digitStep (a : Nat) (c : Char) : Nat := 10 * a + digitVal c

/-- Number of decimal digits of `n`. -/
def digitLen (n : Nat) : Nat :=
  if h : n < 10 then 1
  else
    have : n / 10 < n := Nat.div_lt_self (by omega) (by omega)
    digitLen (n / 10) + 1

theorem digitLen_lt (n : Nat) (h : n < 10) : digitLen n = 1 := by
  unfold digitLen
  rw [dif_pos h]

theorem digitLen_ge (n : Nat) (h : ¬ n < 10) : digitLen n = digitLen (n / 10) + 1 := by
  conv_lhs => rw [digitLen]
  rw [dif_neg h]

theorem toDigitsCore_foldl (fuel : Nat) :
    ∀ (n : Nat) (ds : List Char) (a : Nat), n < fuel →
      (Nat.toDigitsCore 10 fuel n ds).foldl digitStep a
        = ds.foldl digitStep (a * 10 ^ digitLen n + n) := by
  induction fuel with
  | zero => intro n ds a h; exact absurd h (Nat.not_lt_zero n)
  | succ f ih =>
    intro n ds a h
    simp only [Nat.toDigitsCore]
    by_cases h10 : n / 10 = 0
    · rw [if_pos h10]
      have hn : n < 10 := by omega
      rw [List.foldl_cons]
      have hd : digitStep a (Nat.digitChar (n % 10)) = 10 * a + n := by
        simp only [digitStep]
        rw [Nat.mod_eq_of_lt hn, digitVal_digitChar n hn]
      rw [hd, digitLen_lt n hn]
      have : a * 10 ^ 1 + n = 10 * a + n := by ring
      rw [this]
    · rw [if_neg h10]
      have hn10 : ¬ n < 10 := by omega
      have hlt : n / 10 < f := by
        have : n / 10 < n := Nat.div_lt_self (by omega) (by omega)
        omega
      rw [ih (n / 10) (Nat.digitChar (n % 10) :: ds) a hlt]
      rw [List.foldl_cons]
      have hd : digitStep (a * 10 ^ digitLen (n / 10) + n / 10) (Nat.digitChar (n % 10))
          = a * 10 ^ (digitLen (n / 10) + 1) + n := by
        simp only [digitStep]
        rw [digitVal_digitChar (n % 10) (Nat.mod_lt n (by omega))]
        have hmod : 10 * (n / 10) + n % 10 = n := by omega
        calc 10 * (a * 10 ^ digitLen (n / 10) + n / 10) + n % 10
            = a * (10 ^ digitLen (n / 10) * 10) + (10 * (n / 10) + n % 10) := by ring
          _ = a * (10 ^ digitLen (n / 10) * 10) + n := by rw [hmod]
          _ = a * 10 ^ (digitLen (n / 10) + 1) + n := by rw [pow_succ]
      rw [hd, digitLen_ge n hn10]

theorem digitsVal_toDigits (n : Nat) :
    (Nat.toDigits 10 n).foldl digitStep 0 = n := by
  have h := toDigitsCore_foldl (n + 1) n [] 0 (Nat.lt_succ_self n)
  simpa [Nat.toDigits] using h

/-- Decimal printing of naturals is injective. -/
theorem natRepr_injective {a b : Nat} (h : Nat.repr a = Nat.repr b) : a = b := by
  have hdata : Nat.toDigits 10 a = Nat.toDigits 10 b := by
    have hd := congrArg String.data h
    simpa [Nat.repr, List.asString] using hd
  have ha := digitsVal_toDigits a
  have hb := digitsVal_toDigits b
  rw [hdata] at ha
  rw [ha] at hb
  exact hb

/-- `saveSummary` keeps the working fields; with a non-empty summary it
prepends exactly the new entry. -/
theorem saveSummary_fields (s : AppState) (now : Nat) (dateStr isoNow : String) :
    (saveSummary s now dateStr isoNow).summary = s.summary
    ∧ (saveSummary s now dateStr isoNow).customPrompt = s.customPrompt
    ∧ (saveSummary s now dateStr isoNow).transcript = s.transcript
    ∧ (saveSummary s now dateStr isoNow).summaryTitle = s.summaryTitle
    ∧ (jsTrim s.summary ≠ "" →
        (saveSummary s now dateStr isoNow).storedResponses
          = savedEntry s now dateStr isoNow :: s.storedResponses) := by
  unfold saveSummary
  by_cases hs : jsTrim s.summary = ""
  · rw [if_pos hs]
    exact ⟨rfl, rfl, rfl, rfl, fun hne => absurd hs hne⟩
  · rw [if_neg hs]
    exact ⟨rfl, rfl, rfl, rfl, fun _ => rfl⟩

/-- C6: saving twice without an intervening generate prepends, newest first,
two entries whose summary content, prompt and source transcript coincide but
whose ids — the two save timestamps printed in decimal — differ. -/
theorem save_twice_distinct_ids (s : AppState) (t1 t2 : Nat) (d1 i1 d2 i2 : String)
    (hs : jsTrim s.summary ≠ "") (hne : t1 ≠ t2) :
    (saveSummary (saveSummary s t1 d1 i1) t2 d2 i2).storedResponses
        = savedEntry (saveSummary s t1 d1 i1) t2 d2 i2
            :: savedEntry s t1 d1 i1 :: s.storedResponses
    ∧ (savedEntry s t1 d1 i1).id = Nat.repr t1
    ∧ (savedEntry (saveSummary s t1 d1 i1) t2 d2 i2).id = Nat.repr t2
    ∧ (savedEntry s t1 d1 i1).id ≠ (savedEntry (saveSummary s t1 d1 i1) t2 d2 i2).id
    ∧ (savedEntry (saveSummary s t1 d1 i1) t2 d2 i2).summary.content
        = (savedEntry s t1 d1 i1).summary.content
    ∧ (savedEntry (saveSummary s t1 d1 i1) t2 d2 i2).summary.prompt
        = (savedEntry s t1 d1 i1).summary.prompt
    ∧ (savedEntry (saveSummary s t1 d1 i1) t2 d2 i2).summary.originalTranscript
        = (savedEntry s t1 d1 i1).summary.originalTranscript := by
  obtain ⟨hsum, hprompt, htrans, htitle, hstore⟩ := saveSummary_fields s t1 d1 i1
  obtain ⟨_, _, _, _, hstore2⟩ := saveSummary_fields (saveSummary s t1 d1 i1) t2 d2 i2
  have hs2 : jsTrim (saveSummary s t1 d1 i1).summary ≠ "" := by rw [hsum]; exact hs
  refine ⟨?_, rfl, rfl, ?_, ?_, ?_, ?_⟩
  · rw [hstore2 hs2, hstore hs]
  · intro h
    exact hne (natRepr_injective h)
  · simp only [savedEntry, hsum]
  · simp only [savedEntry, hprompt]
  · simp only [savedEntry, htrans]

/-- Witness for C6: two saves of summary "S" at timestamps 0 and 1. -/
theorem save_twice_distinct_ids_witness :
    (saveSummary (saveSummary { initialState with summary := "S" } 0 "d" "i") 1 "d" "i").storedResponses
      = savedEntry (saveSummary { initialState with summary := "S" } 0 "d" "i") 1 "d" "i"
          :: savedEntry { initialState with summary := "S" } 0 "d" "i"
          :: ({ initialState with summary := "S" } : AppState).storedResponses :=
  (save_twice_distinct_ids { initialState with summary := "S" } 0 1 "d" "i" "d" "i"
    (by decide) (by decide)).1

/-! ## Deletion (C7) -/

/-- Filtering out an id that occurs exactly once (all ids distinct) drops
exactly one element. -/
theorem length_filter_ne_of_nodup (l : List StoredResponse) (rid : String)
    (hnd : (l.map (fun r => r.id)).Nodup) (hmem : rid ∈ l.map (fun r => r.id)) :
    (l.filter (fun r => r.id != rid)).length + 1 = l.length := by
  induction l with
  | nil => simp at hmem
  | cons a l ih =>
    rw [List.map_cons, List.nodup_cons] at hnd
    by_cases ha : a.id = rid
    · have hnotin : rid ∉ l.map (fun r => r.id) := ha ▸ hnd.1
      have hkeep : l.filter (fun r => r.id != rid) = l := by
        apply List.filter_eq_self.mpr
        intro r hr
        have hne : r.id ≠ rid := fun he => hnotin (he ▸ List.mem_map_of_mem _ hr)
        exact bne_iff_ne.mpr hne
      have hcond : (a.id != rid) = false := by simp [ha]
      rw [List.filter_cons, hcond]
      simp [hkeep]
    · have hmem' : rid ∈ l.map (fun r => r.id) := by
        rcases List.mem_cons.mp hmem with h | h
        · exact absurd h.symm ha
        · exact h
      have hrec := ih hnd.2 hmem'
      have hcond : (a.id != rid) = true := bne_iff_ne.mpr ha
      rw [List.filter_cons, hcond]
      simp only [if_true, List.length_cons]
      omega

/-- Field effect of `deleteStoredResponse`. -/
theorem deleteStoredResponse_fields (s : AppState) (rid : String) :
    (deleteStoredResponse s rid).storedResponses
        = s.storedResponses.filter (fun r => r.id != rid)
    ∧ (s.selectedResponse = some rid → (deleteStoredResponse s rid).selectedResponse = none)
    ∧ (s.selectedResponse ≠ some rid →
        (deleteStoredResponse s rid).selectedResponse = s.selectedResponse) := by
  unfold deleteStoredResponse
  by_cases hsel : s.selectedResponse = some rid
  · rw [if_pos hsel]
    exact ⟨rfl, fun _ => rfl, fun h => absurd hsel h⟩
  · rw [if_neg hsel]
    exact ⟨rfl, fun h => absurd h hsel, fun _ => rfl⟩

/-- C7: for a history whose entry ids are distinct and contain the given id,
delete shrinks the history by exactly one entry, clears the selection when
the deleted entry was selected, keeps every entry with a different id, and
introduces nothing new. -/
theorem delete_removes_exactly_one (s : AppState) (rid : String)
    (hnd : (s.storedResponses.map (fun r => r.id)).Nodup)
    (hmem : rid ∈ s.storedResponses.map (fun r => r.id)) :
    (deleteStoredResponse s rid).storedResponses.length + 1 = s.storedResponses.length
    ∧ (s.selectedResponse = some rid → (deleteStoredResponse s rid).selectedResponse = none)
    ∧ (∀ r ∈ s.storedResponses, r.id ≠ rid →
        r ∈ (deleteStoredResponse s rid).storedResponses)
    ∧ (∀ r ∈ (deleteStoredResponse s rid).storedResponses,
        r.id ≠ rid ∧ r ∈ s.storedResponses) := by
  obtain ⟨hst, hsel, _⟩ := deleteStoredResponse_fields s rid
  refine ⟨?_, hsel, ?_, ?_⟩
  · rw [hst]
    exact length_filter_ne_of_nodup _ _ hnd hmem
  · intro r hr hne
    rw [hst]
    exact List.mem_filter.mpr ⟨hr, bne_iff_ne.mpr hne⟩
  · intro r hr
    rw [hst] at hr
    obtain ⟨h1, h2⟩ := List.mem_filter.mp hr
    exact ⟨bne_iff_ne.mp h2, h1⟩

/-- A concrete history entry for witnesses. -/
def demoEntry : StoredResponse :=
  { id := "1"
    summary := { id := "1", content := "c", prompt := "p", originalTranscript := "t"
                 createdAt := "i", title := "T" }
    timestamp := "i" }

/-- Witness for C7: deleting the single selected entry of a one-entry
history. -/
theorem delete_removes_exactly_one_witness :
    (deleteStoredResponse
        { initialState with storedResponses := [demoEntry], selectedResponse := some "1" }
        "1").storedResponses.length + 1
      = ({ initialState with storedResponses := [demoEntry], selectedResponse := some "1" }
          : AppState).storedResponses.length :=
  (delete_removes_exactly_one
    { initialState with storedResponses := [demoEntry], selectedResponse := some "1" }
    "1" (by decide) (by decide)).1

/-! ## Selection invariant (C10) -/

/-- The controlled inputs of the UI: the `onChange` handlers writing the five
text fields. -/
def setTranscript (s : AppState) (v : String) : AppState := { s with transcript := v }

def setCustomPrompt (s : AppState) (v : String) : AppState := { s with customPrompt := v }

def setSummary (s : AppState) (v : String) : AppState := { s with summary := v }

def setSummaryTitle (s : AppState) (v : String) : AppState := { s with summaryTitle := v }

def setEmailRecipients (s : AppState) (v : String) : AppState := { s with emailRecipients := v }

/-- Selection invariant: `selectedResponse` is `none` or the id of a stored
entry. -/
def selectionConsistent (s : AppState) : Prop :=
  ∀ id, s.selectedResponse = some id → ∃ r ∈ s.storedResponses, r.id = id

/-- All states the controller can reach: the initial render followed by any
sequence of the modelled operations. -/
inductive Reachable : AppState → Prop where
  | init : Reachable initialState
  | textUpload {s} (contents : String) : Reachable s → Reachable (handleTextUpload s contents)
  | voiceUpload {s} (g : Except Unit String) : Reachable s → Reachable (handleVoiceUpload s g)
  | generate {s} (g : String → String → Except Unit String) (d : String) :
      Reachable s → Reachable (generateSummary s g d)
  | regenerate {s} (g : String → String → Except Unit String) (d : String) :
      Reachable s → Reachable (regenerateSummary s g d)
  | save {s} (now : Nat) (dateStr isoNow : String) :
      Reachable s → Reachable (saveSummary s now dateStr isoNow)
  | load {s} (responseId : String) : Reachable s → Reachable (loadStoredResponse s responseId)
  | del {s} (responseId : String) : Reachable s → Reachable (deleteStoredResponse s responseId)
  | send {s} (g : EmailBody → Except Unit Unit) : Reachable s → Reachable (sendEmailOp s g).1
  | editTranscript {s} (v : String) : Reachable s → Reachable (setTranscript s v)
  | editPrompt {s} (v : String) : Reachable s → Reachable (setCustomPrompt s v)
  | editSummary {s} (v : String) : Reachable s → Reachable (setSummary s v)
  | editTitle {s} (v : String) : Reachable s → Reachable (setSummaryTitle s v)
  | editRecipients {s} (v : String) : Reachable s → Reachable (setEmailRecipients s v)

/-- `generateSummary` touches neither the selection nor the history. -/
theorem generateSummary_sel (s : AppState) (g : String → String → Except Unit String)
    (d : String) :
    (generateSummary s g d).selectedResponse = s.selectedResponse
    ∧ (generateSummary s g d).storedResponses = s.storedResponses := by
  unfold generateSummary
  split
  · exact ⟨rfl, rfl⟩
  · split <;> exact ⟨rfl, rfl⟩

/-- `regenerateSummary` touches neither the selection nor the history. -/
theorem regenerateSummary_sel (s : AppState) (g : String → String → Except Unit String)
    (d : String) :
    (regenerateSummary s g d).selectedResponse = s.selectedResponse
    ∧ (regenerateSummary s g d).storedResponses = s.storedResponses := by
  unfold regenerateSummary
  split
  · exact ⟨rfl, rfl⟩
  · exact generateSummary_sel s g d

/-- `sendEmail` touches neither the selection nor the history. -/
theorem sendEmailOp_sel (s : AppState) (g : EmailBody → Except Unit Unit) :
    (sendEmailOp s g).1.selectedResponse = s.selectedResponse
    ∧ (sendEmailOp s g).1.storedResponses = s.storedResponses := by
  unfold sendEmailOp
  split
  · exact ⟨rfl, rfl⟩
  · split
    · exact ⟨rfl, rfl⟩
    · split <;> exact ⟨rfl, rfl⟩

/-- `saveSummary` keeps the selection and only prepends to the history. -/
theorem saveSummary_sel (s : AppState) (now : Nat) (dateStr isoNow : String) :
    (saveSummary s now dateStr isoNow).selectedResponse = s.selectedResponse
    ∧ ∀ r ∈ s.storedResponses, r ∈ (saveSummary s now dateStr isoNow).storedResponses := by
  unfold saveSummary
  split
  · exact ⟨rfl, fun r hr => hr⟩
  · exact ⟨rfl, fun r hr => List.mem_cons_of_mem _ hr⟩

/-- C10: every reachable controller state satisfies the selection invariant —
the selection starts `none`, `loadStoredResponse` selects only an id it found
in the history, `deleteStoredResponse` clears a selection it removes, and no
other operation sets a selection. -/
theorem selection_always_in_history (s : AppState) (h : Reachable s) :
    selectionConsistent s := by
  induction h with
  | init =>
    intro id hid
    simp [initialState] at hid
  | textUpload contents _ ih => exact ih
  | voiceUpload g _ ih =>
    cases g with
    | ok t => exact ih
    | error e => exact ih
  | @generate s g d _ ih =>
    intro id hid
    obtain ⟨hsel, hst⟩ := generateSummary_sel s g d
    rw [hsel] at hid
    rw [hst]
    exact ih id hid
  | @regenerate s g d _ ih =>
    intro id hid
    obtain ⟨hsel, hst⟩ := regenerateSummary_sel s g d
    rw [hsel] at hid
    rw [hst]
    exact ih id hid
  | @save s now dateStr isoNow _ ih =>
    intro id hid
    obtain ⟨hsel, hmono⟩ := saveSummary_sel s now dateStr isoNow
    rw [hsel] at hid
    obtain ⟨r, hrmem, hrid⟩ := ih id hid
    exact ⟨r, hmono r hrmem, hrid⟩
  | @load s responseId _ ih =>
    intro id hid
    unfold loadStoredResponse at hid ⊢
    rcases hfind : s.storedResponses.find? (fun r => r.id == responseId) with _ | resp
    · rw [hfind] at hid ⊢
      exact ih id hid
    · rw [hfind] at hid ⊢
      have hid' : responseId = id := Option.some.inj hid
      subst hid'
      refine ⟨resp, List.mem_of_find?_eq_some hfind, ?_⟩
      simpa using List.find?_some hfind
  | @del s responseId _ ih =>
    intro id hid
    obtain ⟨hst, hpos, hneg⟩ := deleteStoredResponse_fields s responseId
    by_cases hsel : s.selectedResponse = some responseId
    · rw [hpos hsel] at hid
      exact absurd hid (by simp)
    · rw [hneg hsel] at hid
      obtain ⟨r, hrmem, hrid⟩ := ih id hid
      have hne : r.id ≠ responseId := fun he => hsel (by rw [hid, ← he, hrid])
      rw [hst]
      exact ⟨r, List.mem_filter.mpr ⟨hrmem, bne_iff_ne.mpr hne⟩, hrid⟩
  | @send s g _ ih =>
    intro id hid
    obtain ⟨hsel, hst⟩ := sendEmailOp_sel s g
    rw [hsel] at hid
    rw [hst]
    exact ih id hid
  | editTranscript v _ ih => exact ih
  | editPrompt v _ ih => exact ih
  | editSummary v _ ih => exact ih
  | editTitle v _ ih => exact ih
  | editRecipients v _ ih => exact ih

/-- Witness for C10 at the initial state. -/
theorem selection_always_in_history_witness : selectionConsistent initialState :=
  selection_always_in_history initialState Reachable.init

end AiSummarizer
